import Mathlib

/-!
Verification of the `ginhtmx` package (repository jeffscottbrown/ginhtmxtemplates).

The package is a conditional template renderer for gin handlers: per request it
either writes the named content templates verbatim (fragment mode, signalled by a
non-empty `HX-Request` header) or wraps their concatenated output in a layout
template (full-page mode).  The shallow embedding below models:

* the data model `gin.H` as an association list of string keys to values, where a
  value is either an ordinary value or a `template.HTML`-marked raw string;
* the opaque `html/template` engine as a function from template name and model to
  the text it streams to the writer before returning, together with an optional
  error (so a failing execution still contributes the output produced before the
  failure, exactly as `Template.ExecuteTemplate` streams into the writer);
* the gin exchange (request header plus buffered response writer) with gin's
  `responseWriter.WriteHeader` semantics: a status code set before the first body
  write overwrites the pending status, after the first write it is ignored;
* the renderer `Htmx` with its constructors `NewHtmx` / `NewHtmxWithConfig` and
  the methods `RenderWithStatus`, `Render`, `renderTemplateToString`, translated
  line by line from src/ginhtmx/ginhtmx.go.  A nil `*template.Template` is
  modelled as `none`; invoking `ExecuteTemplate` through a nil pointer panics in
  Go, which the embedding reports as `none` (abnormal termination) of the render.
-/

/-- A value stored in the `gin.H` model.  `HValue.html s` models `template.HTML s`,
a string marked as pre-escaped raw HTML that the engine must not escape again;
`HValue.str` models any ordinary value. -/
inductive HValue where
  | str : String → HValue
  | html : String → HValue
deriving DecidableEq, Repr

/-- The model `gin.H`: a string-keyed map, here an association list whose lookup
takes the first matching key. -/
abbrev H : Type := List (String × HValue)

/-- Go map assignment `data[k] = v` (ginhtmx.go line 74): afterwards `k` maps to
`v` and every other key is unchanged. -/
def H.set (m : H) (k : String) (v : HValue) : H :=
  (k, v) :: List.filter (fun p => p.1 ≠ k) m

/-- Go map read `data[k]`. -/
def H.get (m : H) (k : String) : Option HValue :=
  List.lookup k m

/-- The opaque `html/template` template set, seen through the one operation the
renderer uses, `ExecuteTemplate(writer, name, data)`: executing a named template
against a model yields the text written to the writer before the call returns,
and an optional error.  On failure the first component is the output streamed
before the failure (unknown names yield `("", some e)` in `html/template`). -/
structure TemplateEngine where
  exec : String → H → String × Option String

/-- The gin exchange: the one request header the renderer reads, and the buffered
response writer (pending status code, whether a body write has happened, body
bytes, and the `Content-Type` response header). -/
structure Exchange where
  hxRequestHeader : String
  status : Nat
  written : Bool
  body : String
  contentType : String
deriving DecidableEq, Repr

/-- gin `responseWriter.WriteHeader` (reached via `Context.Status`): a positive
code different from the pending one replaces it, unless the body has already
been written, in which case it is ignored. -/
def Exchange.setStatus (ex : Exchange) (code : Nat) : Exchange :=
  if 0 < code ∧ ex.status ≠ code then
    if ex.written then ex else { ex with status := code }
  else ex

/-- gin `responseWriter.Write`: flushes the pending header and appends the bytes
to the body. -/
def Exchange.write (ex : Exchange) (s : String) : Exchange :=
  { ex with written := true, body := ex.body ++ s }

/-- net/http `writeContentType`: sets the `Content-Type` response header only if
it is not already set. -/
def Exchange.writeContentType (ex : Exchange) (ct : String) : Exchange :=
  if ex.contentType = "" then { ex with contentType := ct } else ex

/-- net/http `bodyAllowedForStatus`: 1xx, 204 and 304 responses carry no body. -/
def bodyAllowedForStatus (status : Nat) : Bool :=
  if 100 ≤ status ∧ status ≤ 199 then false
  else if status = 204 then false
  else if status = 304 then false
  else true

/-- gin `Context.Data(code, contentType, data)`: renders a raw-bytes response —
sets the status to `code`, writes the content type, and writes the bytes (for a
status that allows a body; otherwise only the header is flushed). -/
def Exchange.dataResponse (ex : Exchange) (code : Nat) (ct : String) (s : String) : Exchange :=
  let ex := ex.setStatus code
  let ex := ex.writeContentType ct
  if bodyAllowedForStatus code then ex.write s
  else { ex with written := true }

/-- The `ModelDecorator` interface: `DecorateModel(ginContext, model)` receives
the gin context and the model by reference and may add, overwrite or remove any
key; modelled as a function returning the updated model. -/
def ModelDecorator : Type := Exchange → H → H

/-- `HtmxConfig` (ginhtmx.go lines 17-27). -/
structure HtmxConfig where
  LayoutTemplateName : String
  ContentVariableName : String
  ModelDecorator : Option ModelDecorator

/-- `Htmx` (ginhtmx.go lines 11-14).  The `template` field is a `*template.Template`
in Go and may be nil, hence the `Option`. -/
structure Htmx where
  template : Option TemplateEngine
  config : HtmxConfig

/-- `NewHtmxWithConfig` (ginhtmx.go lines 30-35): stores the template set and the
configuration verbatim; no validation of either. -/
def NewHtmxWithConfig (template : Option TemplateEngine) (config : HtmxConfig) : Htmx :=
  { config := config, template := template }

/-- `NewHtmx` (ginhtmx.go lines 40-49): the default configuration uses "layout"
as the layout template name, "Content" as the content variable name, and no
decorator. -/
def NewHtmx (template : Option TemplateEngine) : Htmx :=
  { config :=
      { LayoutTemplateName := "layout"
        ContentVariableName := "Content"
        ModelDecorator := none }
    template := template }

/-- `Htmx.renderTemplateToString` (ginhtmx.go lines 88-95): executes the named
template into a fresh buffer, discards the error (`_ =`), and returns whatever
was written to the buffer — on failure, the output produced before the failure. -/
def renderTemplateToString (eng : TemplateEngine) (name : String) (data : H) : String :=
  (eng.exec name data).1

/-- The decorator step of `RenderWithStatus` (ginhtmx.go lines 60-62): if a
decorator is configured, it is applied once to the model. -/
def decoratedModel (config : HtmxConfig) (ctx : Exchange) (data : H) : H :=
  match config.ModelDecorator with
  | some dec => dec ctx data
  | none => data

/-- The concatenation loop of `RenderWithStatus` (ginhtmx.go lines 64-68):
`content += htmx.renderTemplateToString(name, data)` over the names in order.
When the template set is nil (`none`) and at least one name is rendered, the
`ExecuteTemplate` call dereferences a nil pointer and panics: `none`. -/
def concatRendered (t : Option TemplateEngine) (templateNames : List String) (data : H) :
    Option String :=
  match templateNames with
  | [] => some ""
  | name :: rest =>
    match t with
    | none => none
    | some eng =>
      (concatRendered t rest data).map (fun tail => renderTemplateToString eng name data ++ tail)

/-- `Htmx.RenderWithStatus` (ginhtmx.go lines 56-77), translated line by line:
set the status; read the `HX-Request` header; run the decorator if configured;
render and concatenate the named templates; then either write the content as a
raw `text/html; charset=utf-8` response with `http.StatusOK` (the literal 200 in
the source) in fragment mode, or store the content in the model under the
configured key as `template.HTML` and execute the layout template straight to
the response writer, discarding its error, in full-page mode.  The result is the
final exchange and the final model, or `none` when the Go code panics on a nil
template set. -/
def Htmx.RenderWithStatus (htmx : Htmx) (ginContext : Exchange) (data : H)
    (status : Nat) (templateNames : List String) : Option (Exchange × H) :=
  let ctx := ginContext.setStatus status
  let isHTMX := ctx.hxRequestHeader ≠ ""
  let data := decoratedModel htmx.config ctx data
  match concatRendered htmx.template templateNames data with
  | none => none
  | some content =>
    if isHTMX then
      some (ctx.dataResponse 200 "text/html; charset=utf-8" content, data)
    else
      let data := H.set data htmx.config.ContentVariableName (HValue.html content)
      match htmx.template with
      | none => none
      | some eng =>
        some (ctx.write (eng.exec htmx.config.LayoutTemplateName data).1, data)

/-- `Htmx.Render` (ginhtmx.go lines 84-86): `RenderWithStatus` with `http.StatusOK`. -/
def Htmx.Render (htmx : Htmx) (c : Exchange) (data : H) (templateNames : List String) :
    Option (Exchange × H) :=
  htmx.RenderWithStatus c data 200 templateNames

/-- The concatenation, in call order, of the individual rendered outputs of the
named templates against a model — the intended value of the `content` variable
of `RenderWithStatus` (spec §4.1 step 4). -/
def fragmentContent (eng : TemplateEngine) (templateNames : List String) (data : H) : String :=
  List.foldr (fun name acc => renderTemplateToString eng name data ++ acc) "" templateNames

/-- Concrete engine mirroring the test suite's template set (ginhtmx_test.go): a
"hello" template that greets the model's `Name`, and a "layout" template that
wraps the model's `Content` between a top and a bottom marker; every other name
fails with an error, as `html/template` does for undefined templates. -/
def engHello : TemplateEngine :=
  ⟨fun name data =>
    if name = "hello" then
      (match H.get data "Name" with
       | some (HValue.str n) => ("Hello, " ++ n ++ "!", none)
       | _ => ("Hello, !", none)
      )
    else if name = "layout" then
      (match H.get data "Content" with
       | some (HValue.html c) => ("[top]" ++ c ++ "[bottom]", none)
       | _ => ("[top][bottom]", none)
      )
    else ("", some "no such template")⟩

/-- An engine that renders nothing: every template yields empty output and no
error. -/
def engEmpty : TemplateEngine := ⟨fun _ _ => ("", none)⟩

/-- An engine modelling a failing execution: template "a" streams "X" and then
fails with an error; every other name fails immediately, as `html/template`
does for undefined templates. -/
def engFailA : TemplateEngine :=
  ⟨fun name _ => if name = "a" then ("X", some "boom") else ("", some "undefined template")⟩

/-- A fresh gin exchange for a request carrying `HX-Request: true` (fragment
mode): gin's response writer starts with pending status 200 and nothing
written. -/
def exFragment : Exchange := ⟨"true", 200, false, "", ""⟩

/-- A fresh gin exchange for a request without the `HX-Request` header
(full-page mode). -/
def exFullPage : Exchange := ⟨"", 200, false, "", ""⟩

/-- The default configuration built by `NewHtmx`. -/
def defaultConfig : HtmxConfig :=
  { LayoutTemplateName := "layout", ContentVariableName := "Content", ModelDecorator := none }

/-! ## Helper lemmas -/

@[simp]
theorem Exchange.setStatus_hxRequestHeader (ex : Exchange) (code : Nat) :
    (ex.setStatus code).hxRequestHeader = ex.hxRequestHeader := by
  unfold Exchange.setStatus; split_ifs <;> rfl

@[simp]
theorem Exchange.setStatus_written (ex : Exchange) (code : Nat) :
    (ex.setStatus code).written = ex.written := by
  unfold Exchange.setStatus; split_ifs <;> rfl

@[simp]
theorem Exchange.setStatus_body (ex : Exchange) (code : Nat) :
    (ex.setStatus code).body = ex.body := by
  unfold Exchange.setStatus; split_ifs <;> rfl

@[simp]
theorem Exchange.setStatus_contentType (ex : Exchange) (code : Nat) :
    (ex.setStatus code).contentType = ex.contentType := by
  unfold Exchange.setStatus; split_ifs <;> rfl

/-- Setting the status to 200 on an exchange whose body has not been written
yields pending status 200, whatever the previous pending status was. -/
theorem Exchange.setStatus_200_of_not_written (ex : Exchange) (hw : ex.written = false) :
    ex.setStatus 200 = { ex with status := 200 } := by
  cases ex with
  | mk hx st w b ct =>
    obtain rfl : w = false := hw
    unfold Exchange.setStatus
    split_ifs with h1 h2
    · exact absurd h2 (by simp)
    · rfl
    · have h200 : st = 200 := by
        by_contra hne
        exact h1 ⟨by omega, hne⟩
      subst h200
      rfl

/-- Evaluation of gin's `Context.Data` at code 200 on an unwritten exchange:
status becomes 200, the content type is set if absent, and the bytes are
appended. -/
theorem Exchange.dataResponse_200_of_not_written (ex : Exchange) (hw : ex.written = false)
    (ct s : String) :
    ex.dataResponse 200 ct s =
      { hxRequestHeader := ex.hxRequestHeader, status := 200, written := true,
        body := ex.body ++ s,
        contentType := if ex.contentType = "" then ct else ex.contentType } := by
  unfold Exchange.dataResponse
  rw [Exchange.setStatus_200_of_not_written ex hw]
  unfold Exchange.writeContentType Exchange.write bodyAllowedForStatus
  cases ex
  split_ifs <;> simp_all

/-- The concatenation loop over a non-nil template set never panics and returns
the in-order concatenation of the individual rendered outputs. -/
theorem concatRendered_some (eng : TemplateEngine) (templateNames : List String) (data : H) :
    concatRendered (some eng) templateNames data =
      some (fragmentContent eng templateNames data) := by
  induction templateNames with
  | nil => rfl
  | cons name rest ih => simp [concatRendered, fragmentContent, ih]

/-- Go map assignment followed by a read of the same key yields the assigned
value. -/
theorem H.get_set (m : H) (k : String) (v : HValue) : H.get (H.set m k v) k = some v := by
  simp [H.get, H.set, List.lookup]

/-- Closed form of `RenderWithStatus` on a fragment request (non-empty
`HX-Request` header) with a non-nil template set and an unwritten response:
the body is exactly the concatenated content, the content type is set to
`text/html; charset=utf-8` if absent, the final status is the hardcoded 200 of
the `Data` call, and the final model is the decorated model. -/
theorem render_fragment (eng : TemplateEngine) (cfg : HtmxConfig) (ex : Exchange)
    (data : H) (status : Nat) (templateNames : List String)
    (hfrag : ex.hxRequestHeader ≠ "") (hw : ex.written = false) :
    (Htmx.mk (some eng) cfg).RenderWithStatus ex data status templateNames =
      some
        ({ hxRequestHeader := ex.hxRequestHeader, status := 200, written := true,
           body := ex.body ++
             fragmentContent eng templateNames (decoratedModel cfg (ex.setStatus status) data),
           contentType :=
             if ex.contentType = "" then "text/html; charset=utf-8" else ex.contentType },
         decoratedModel cfg (ex.setStatus status) data) := by
  unfold Htmx.RenderWithStatus
  dsimp only
  rw [concatRendered_some]
  dsimp only
  have hfrag1 : (ex.setStatus status).hxRequestHeader ≠ "" := by simpa using hfrag
  have hw1 : (ex.setStatus status).written = false := by simp [hw]
  rw [if_pos hfrag1, Exchange.dataResponse_200_of_not_written _ hw1]
  simp

/-- Closed form of `RenderWithStatus` on a full-page request (absent or empty
`HX-Request` header) with a non-nil template set: the concatenated content is
stored into the model under the configured content variable name as raw HTML,
the layout template is executed against that augmented model, and its output is
streamed to the response writer. -/
theorem render_fullpage (eng : TemplateEngine) (cfg : HtmxConfig) (ex : Exchange)
    (data : H) (status : Nat) (templateNames : List String)
    (hfull : ex.hxRequestHeader = "") :
    (Htmx.mk (some eng) cfg).RenderWithStatus ex data status templateNames =
      some
        ((ex.setStatus status).write
           (eng.exec cfg.LayoutTemplateName
             (H.set (decoratedModel cfg (ex.setStatus status) data)
               cfg.ContentVariableName
               (HValue.html
                 (fragmentContent eng templateNames
                   (decoratedModel cfg (ex.setStatus status) data))))).1,
         H.set (decoratedModel cfg (ex.setStatus status) data)
           cfg.ContentVariableName
           (HValue.html
             (fragmentContent eng templateNames
               (decoratedModel cfg (ex.setStatus status) data)))) := by
  unfold Htmx.RenderWithStatus
  dsimp only
  rw [concatRendered_some]
  dsimp only
  have hfull1 : ¬ ((ex.setStatus status).hxRequestHeader ≠ "") := by simp [hfull]
  rw [if_neg hfull1]

/-! ## Claim theorems -/

/-- Claim C1 (code bug, evaluation at the failing input).  The claim states that
the response status always equals the `status` argument in both branches.  In
the full-page branch it does, but in the fragment branch the source passes the
literal `http.StatusOK` to `ginContext.Data` (ginhtmx.go line 71), and gin's
`Data` re-sets the pending status before the first body write: a fragment
request rendered with status 404 is answered with status 200, contradicting the
method's own doc comment ("writes that to the response with the provided status
code").  This theorem evaluates both branches at status 404. -/
theorem c1_fragment_status_overridden_to_200 :
    ((NewHtmx (some engEmpty)).RenderWithStatus exFragment [] 404 ["a"]).map
        (fun r => r.1.status) = some 200 ∧
    ((NewHtmx (some engEmpty)).RenderWithStatus exFullPage [] 404 ["a"]).map
        (fun r => r.1.status) = some 404 := by
  constructor <;> decide

/-- Claim C2: for every request whose HX-Request header is non-empty,
`RenderWithStatus` writes exactly the concatenation of the named templates'
rendered outputs as the response body, with content type
`text/html; charset=utf-8`, and the layout template output appears nowhere:
the complete final exchange is given in closed form. -/
theorem c2_fragment_bypass (eng : TemplateEngine) (cfg : HtmxConfig) (ex : Exchange)
    (data : H) (status : Nat) (templateNames : List String)
    (hfrag : ex.hxRequestHeader ≠ "") (hw : ex.written = false)
    (hb : ex.body = "") (hct : ex.contentType = "") :
    (Htmx.mk (some eng) cfg).RenderWithStatus ex data status templateNames =
      some
        ({ hxRequestHeader := ex.hxRequestHeader, status := 200, written := true,
           body := fragmentContent eng templateNames
             (decoratedModel cfg (ex.setStatus status) data),
           contentType := "text/html; charset=utf-8" },
         decoratedModel cfg (ex.setStatus status) data) := by
  rw [render_fragment eng cfg ex data status templateNames hfrag hw]
  simp [hb, hct]

/-- Witness for C2 at the test suite's concrete scenario: a fragment request
with model `{Name: "Jerry"}` and template `hello` receives exactly
"Hello, Jerry!" with the HTML content type and no layout wrapper. -/
theorem c2_fragment_bypass_witness :
    (Htmx.mk (some engHello) defaultConfig).RenderWithStatus exFragment
        [("Name", HValue.str "Jerry")] 200 ["hello"] =
      some (⟨"true", 200, true, "Hello, Jerry!", "text/html; charset=utf-8"⟩,
        [("Name", HValue.str "Jerry")]) :=
  (c2_fragment_bypass engHello defaultConfig exFragment [("Name", HValue.str "Jerry")]
    200 ["hello"] (by decide) rfl rfl rfl).trans (by decide)

/-- Claim C3: for every request whose HX-Request header is absent or empty,
`RenderWithStatus` stores the concatenated content into the model under the
configured content variable name, marked as pre-escaped raw HTML
(`HValue.html`, modelling `template.HTML`), executes the configured layout
template against that augmented model, and writes its output to the response;
moreover a read of the content variable in the layout's execution context
yields exactly the raw-HTML-marked content. -/
theorem c3_layout_wrap (eng : TemplateEngine) (cfg : HtmxConfig) (ex : Exchange)
    (data : H) (status : Nat) (templateNames : List String)
    (hfull : ex.hxRequestHeader = "") :
    (Htmx.mk (some eng) cfg).RenderWithStatus ex data status templateNames =
      some
        ((ex.setStatus status).write
           (eng.exec cfg.LayoutTemplateName
             (H.set (decoratedModel cfg (ex.setStatus status) data)
               cfg.ContentVariableName
               (HValue.html
                 (fragmentContent eng templateNames
                   (decoratedModel cfg (ex.setStatus status) data))))).1,
         H.set (decoratedModel cfg (ex.setStatus status) data)
           cfg.ContentVariableName
           (HValue.html
             (fragmentContent eng templateNames
               (decoratedModel cfg (ex.setStatus status) data)))) ∧
    H.get
        (H.set (decoratedModel cfg (ex.setStatus status) data)
          cfg.ContentVariableName
          (HValue.html
            (fragmentContent eng templateNames
              (decoratedModel cfg (ex.setStatus status) data))))
        cfg.ContentVariableName =
      some
        (HValue.html
          (fragmentContent eng templateNames
            (decoratedModel cfg (ex.setStatus status) data))) :=
  ⟨render_fullpage eng cfg ex data status templateNames hfull, H.get_set _ _ _⟩

/-- Witness for C3 at the test suite's concrete scenario: a full-page request
with model `{Name: "Jerry"}` and template `hello` receives the layout output
with the greeting substituted, and the layout's model holds the raw-HTML
content. -/
theorem c3_layout_wrap_witness :
    (Htmx.mk (some engHello) defaultConfig).RenderWithStatus exFullPage
        [("Name", HValue.str "Jerry")] 200 ["hello"] =
      some (⟨"", 200, true, "[top]Hello, Jerry![bottom]", ""⟩,
        [("Content", HValue.html "Hello, Jerry!"), ("Name", HValue.str "Jerry")]) ∧
    H.get [("Content", HValue.html "Hello, Jerry!"), ("Name", HValue.str "Jerry")]
        "Content" = some (HValue.html "Hello, Jerry!") := by
  have h := c3_layout_wrap engHello defaultConfig exFullPage
    [("Name", HValue.str "Jerry")] 200 ["hello"] rfl
  exact ⟨h.1.trans (by decide), by decide⟩

/-- Claim C4: the `content` built by the concatenation loop of
`RenderWithStatus` equals the in-order concatenation of each named template's
individual rendered output against the model, and in particular for two names
`a` and `b` it is `renderTemplateToString a ++ renderTemplateToString b`. -/
theorem c4_concatenation_order :
    (∀ (eng : TemplateEngine) (templateNames : List String) (data : H),
      concatRendered (some eng) templateNames data =
        some (fragmentContent eng templateNames data)) ∧
    (∀ (eng : TemplateEngine) (a b : String) (data : H),
      concatRendered (some eng) [a, b] data =
        some (renderTemplateToString eng a data ++ renderTemplateToString eng b data)) := by
  refine ⟨concatRendered_some, fun eng a b data => ?_⟩
  rw [concatRendered_some]
  simp [fragmentContent]

/-- Claim C5: a configured decorator is applied exactly once, before any
template execution and regardless of the branch taken: rendering with decorator
`dec` is identical to first applying `dec` to the model once and then rendering
with no decorator, so every mutation the decorator makes is visible to all
subsequent template executions. -/
theorem c5_decorator_once_before_rendering (t : Option TemplateEngine)
    (layoutName contentName : String) (dec : ModelDecorator)
    (ex : Exchange) (data : H) (status : Nat) (templateNames : List String) :
    (Htmx.mk t ⟨layoutName, contentName, some dec⟩).RenderWithStatus
        ex data status templateNames =
      (Htmx.mk t ⟨layoutName, contentName, none⟩).RenderWithStatus
        ex (dec (ex.setStatus status) data) status templateNames := rfl

/-- Claim C6, counterexample.  The claim states that a nil template set fails
with a ConfigurationError at construction or, consistently, at the first
render, surfaced to the caller.  In the source `NewHtmxWithConfig`/`NewHtmx`
perform no validation at all — their return type has no error channel — and a
first render that executes no template (fragment mode, zero names) completes
normally, with no error of any kind: construction with a nil template set
returns an ordinary renderer and its first render succeeds. -/
theorem c6_nil_template_no_configuration_error :
    NewHtmx none = Htmx.mk none defaultConfig ∧
    (NewHtmx none).RenderWithStatus exFragment [] 200 [] =
      some (⟨"true", 200, true, "", "text/html; charset=utf-8"⟩, []) := by
  constructor
  · rfl
  · decide

/-- Claim C6, amended: constructing a renderer with a nil template set performs
no validation and always succeeds, storing the nil reference; no
ConfigurationError exists.  A first render that executes no template (fragment
mode with zero names) completes normally; any render that reaches a template
execution — a non-empty name list in either mode, or the layout execution of
full-page mode — panics on the nil pointer instead of surfacing an error. -/
theorem c6_nil_template_unvalidated (cfg : HtmxConfig) (ex : Exchange) (data : H)
    (status : Nat) (name : String) (rest : List String) :
    NewHtmxWithConfig none cfg = Htmx.mk none cfg ∧
    (ex.hxRequestHeader ≠ "" →
      ((NewHtmxWithConfig none cfg).RenderWithStatus ex data status []).isSome = true) ∧
    (NewHtmxWithConfig none cfg).RenderWithStatus ex data status (name :: rest) = none ∧
    (ex.hxRequestHeader = "" →
      (NewHtmxWithConfig none cfg).RenderWithStatus ex data status [] = none) := by
  refine ⟨rfl, fun hfrag => ?_, rfl, fun hfull => ?_⟩
  · unfold Htmx.RenderWithStatus NewHtmxWithConfig
    dsimp only
    have hfrag1 : (ex.setStatus status).hxRequestHeader ≠ "" := by simpa using hfrag
    rw [concatRendered]
    dsimp only
    rw [if_pos hfrag1]
    rfl
  · unfold Htmx.RenderWithStatus NewHtmxWithConfig
    dsimp only
    have hfull1 : ¬ ((ex.setStatus status).hxRequestHeader ≠ "") := by simp [hfull]
    rw [concatRendered]
    dsimp only
    rw [if_neg hfull1]

/-- Witness for the amended C6 at concrete inputs: with a nil template set,
a fragment render of zero templates completes normally, while a full-page
render of zero templates and any render of one template panic. -/
theorem c6_nil_template_unvalidated_witness :
    ((NewHtmxWithConfig none defaultConfig).RenderWithStatus
        exFragment [] 200 []).isSome = true ∧
    (NewHtmxWithConfig none defaultConfig).RenderWithStatus
        exFullPage [] 200 ["a"] = none ∧
    (NewHtmxWithConfig none defaultConfig).RenderWithStatus
        exFullPage [] 200 [] = none :=
  ⟨(c6_nil_template_unvalidated defaultConfig exFragment [] 200 "a" []).2.1 (by decide),
   (c6_nil_template_unvalidated defaultConfig exFullPage [] 200 "a" []).2.2.1,
   (c6_nil_template_unvalidated defaultConfig exFullPage [] 200 "a" []).2.2.2 rfl⟩

/-- Claim C7 (code bug, evaluation at the failing input).  The discard part of
the claim holds: `renderTemplateToString` drops the execution error and keeps
the output streamed before the failure, and the response body is still written.
The status part fails in fragment mode: with status 404 and a template that
writes "X" and then fails, the response carries body "X" but status 200 — the
previously-set 404 is overwritten by the hardcoded `http.StatusOK` of the
fragment write (the same slip as in C1), not left unchanged as the claim
states. -/
theorem c7_error_discarded_status_overridden :
    (Htmx.mk (some engFailA) defaultConfig).RenderWithStatus exFragment [] 404 ["a"] =
      some (⟨"true", 200, true, "X", "text/html; charset=utf-8"⟩, []) := by
  decide

/-- Claim C8: `NewHtmx templateSet` produces exactly the renderer that
`NewHtmxWithConfig templateSet {LayoutTemplateName := "layout",
ContentVariableName := "Content", ModelDecorator := none}` produces, so every
render call on the two behaves identically. -/
theorem c8_default_configuration :
    (∀ t : Option TemplateEngine, NewHtmx t = NewHtmxWithConfig t defaultConfig) ∧
    (∀ (t : Option TemplateEngine) (ex : Exchange) (data : H) (status : Nat)
        (templateNames : List String),
      (NewHtmx t).RenderWithStatus ex data status templateNames =
        (NewHtmxWithConfig t defaultConfig).RenderWithStatus ex data status templateNames) :=
  ⟨fun _ => rfl, fun _ _ _ _ _ => rfl⟩

/-- Claim C9: rendering an empty sequence of template names is not an error:
the content is the empty string, so a fragment request receives an empty body
(with the HTML content type) and a full-page request receives the layout
rendered with the content variable bound to the empty raw-HTML string. -/
theorem c9_empty_template_names (eng : TemplateEngine) (cfg : HtmxConfig)
    (ex : Exchange) (data : H) (status : Nat) :
    (ex.hxRequestHeader ≠ "" → ex.written = false → ex.body = "" → ex.contentType = "" →
      (Htmx.mk (some eng) cfg).RenderWithStatus ex data status [] =
        some
          ({ hxRequestHeader := ex.hxRequestHeader, status := 200, written := true,
             body := "", contentType := "text/html; charset=utf-8" },
           decoratedModel cfg (ex.setStatus status) data)) ∧
    (ex.hxRequestHeader = "" →
      (Htmx.mk (some eng) cfg).RenderWithStatus ex data status [] =
        some
          ((ex.setStatus status).write
             (eng.exec cfg.LayoutTemplateName
               (H.set (decoratedModel cfg (ex.setStatus status) data)
                 cfg.ContentVariableName (HValue.html ""))).1,
           H.set (decoratedModel cfg (ex.setStatus status) data)
             cfg.ContentVariableName (HValue.html ""))) := by
  constructor
  · intro hfrag hw hb hct
    rw [render_fragment eng cfg ex data status [] hfrag hw]
    simp [hb, hct, fragmentContent]
  · intro hfull
    rw [render_fullpage eng cfg ex data status [] hfull]
    rfl

/-- Witness for C9 at concrete inputs: with zero template names, a fragment
request receives an empty body and a full-page request receives the layout
rendered around empty content. -/
theorem c9_empty_template_names_witness :
    (Htmx.mk (some engHello) defaultConfig).RenderWithStatus exFragment [] 404 [] =
      some (⟨"true", 200, true, "", "text/html; charset=utf-8"⟩, []) ∧
    (Htmx.mk (some engHello) defaultConfig).RenderWithStatus exFullPage [] 404 [] =
      some (⟨"", 404, true, "[top][bottom]", ""⟩, [("Content", HValue.html "")]) :=
  ⟨((c9_empty_template_names engHello defaultConfig exFragment [] 404).1
      (by decide) rfl rfl rfl).trans (by decide),
   ((c9_empty_template_names engHello defaultConfig exFullPage [] 404).2 rfl).trans
      (by decide)⟩

/-- Claim C10: in fragment mode the renderer itself never mutates the model —
the content-variable assignment exists only in the full-page branch — so the
model coming out of a fragment render is exactly the model after the decorator
ran. -/
theorem c10_fragment_leaves_model_untouched (eng : TemplateEngine) (cfg : HtmxConfig)
    (ex : Exchange) (data : H) (status : Nat) (templateNames : List String)
    (hfrag : ex.hxRequestHeader ≠ "") :
    ((Htmx.mk (some eng) cfg).RenderWithStatus ex data status templateNames).map
        Prod.snd =
      some (decoratedModel cfg (ex.setStatus status) data) := by
  unfold Htmx.RenderWithStatus
  dsimp only
  rw [concatRendered_some]
  dsimp only
  have hfrag1 : (ex.setStatus status).hxRequestHeader ≠ "" := by simpa using hfrag
  rw [if_pos hfrag1]
  rfl

/-- Witness for C10: a fragment render with a decorator-free configuration and
a non-empty model returns the caller's model unchanged. -/
theorem c10_fragment_leaves_model_untouched_witness :
    (((Htmx.mk (some engHello) defaultConfig).RenderWithStatus exFragment
        [("Name", HValue.str "Jerry")] 500 ["hello"]).map Prod.snd) =
      some [("Name", HValue.str "Jerry")] :=
  (c10_fragment_leaves_model_untouched engHello defaultConfig exFragment
    [("Name", HValue.str "Jerry")] 500 ["hello"] (by decide)).trans (by decide)
